import Mathlib

/-!
Shallow embedding of the Reservation & Settlement Engine of the
event-management backend (src/modules/transaction/transaction.service.ts and
src/utils/point.utils.ts).

Times (`Date` values) are modelled as integer timestamps; the database is an
explicit record of lists; every service method is a pure function from the
database (plus a clock value `now`) to the updated database together with an
`Except ApiError` result, mirroring the fact that a thrown `ApiError` aborts
the enclosing `$transaction` with no partial effect, while effects of earlier,
separately committed `$transaction` blocks persist.
-/

/-- Transaction lifecycle states (Prisma enum). -/
inductive TxStatus where
  | WAITING_PAYMENT
  | WAITING_CONFIRMATION
  | DONE
  | REJECTED
  | EXPIRED
  | CANCELLED
deriving DecidableEq, Repr

/-- Voucher discount kinds (Prisma enum). -/
inductive DiscountType where
  | PERCENTAGE
  | FIXED
deriving DecidableEq, Repr

/-- Point ledger entry kinds (Prisma enum). -/
inductive PointType where
  | EARNED
  | USED
deriving DecidableEq, Repr

/-- Errors thrown by the service (`ApiError(message, status)`). -/
structure ApiError where
  message : String
  status : Nat
deriving DecidableEq, Repr

/-- Ticket category row: seats inventory per category. -/
structure TicketType where
  id : Nat
  eventId : Nat
  price : Int
  totalSeat : Int
  availableSeat : Int
  sold : Int
deriving DecidableEq, Repr

/-- Event row (only the fields the engine reads). -/
structure EventRow where
  id : Nat
  organizerId : Option Nat
  title : String
  endDate : Option Int
deriving DecidableEq, Repr

/-- Organizer row: links an organizer profile to its user. -/
structure OrganizerRow where
  id : Nat
  userId : Nat
deriving DecidableEq, Repr

/-- Voucher row, scoped to one event. -/
structure Voucher where
  id : Nat
  eventId : Nat
  code : String
  discountType : DiscountType
  discountAmount : Int
  startDate : Int
  endDate : Int
  usageLimit : Int
  usedCount : Int
deriving DecidableEq, Repr

/-- Coupon row, scoped to one user, single-use. -/
structure Coupon where
  id : Nat
  userId : Nat
  code : String
  discountAmount : Int
  expiredAt : Int
  isUsed : Bool
deriving DecidableEq, Repr

/-- Point ledger entry; `amount` is signed (negative for USED entries). -/
structure Point where
  id : Nat
  userId : Nat
  amount : Int
  ptType : PointType
  createdAt : Int
  expiredAt : Option Int
  description : String
deriving DecidableEq, Repr

/-- User row (cached point total and role). -/
structure UserRow where
  id : Nat
  point : Int
  role : String
deriving DecidableEq, Repr

/-- Transaction row. -/
structure TransactionRow where
  id : Nat
  userId : Nat
  eventId : Nat
  ticketTypeId : Nat
  voucherId : Option Nat
  couponId : Option Nat
  ticketQty : Int
  totalPrice : Int
  pointsUsed : Int
  finalPrice : Int
  expiredAt : Int
  status : TxStatus
  paymentProof : Option String
  rejectionReason : Option String
  createdAt : Int
  updatedAt : Int
deriving DecidableEq, Repr

/-- Attendee (ticket) row, created at settlement. -/
structure Attendee where
  id : Nat
  transactionId : Nat
  userId : Nat
  eventId : Nat
  ticketTypeId : Nat
  qrToken : String
  checkedIn : Bool
  checkedInAt : Option Int
deriving DecidableEq, Repr

/-- The database state threaded through every service call.
`nextPointId`, `nextTxId`, `nextAttendeeId` model autoincrement ids and
`tokenCtr` indexes into the external unique-token generator. -/
structure DB where
  ticketTypes : List TicketType
  events : List EventRow
  organizers : List OrganizerRow
  vouchers : List Voucher
  coupons : List Coupon
  points : List Point
  users : List UserRow
  transactions : List TransactionRow
  attendees : List Attendee
  nextPointId : Nat
  nextTxId : Nat
  nextAttendeeId : Nat
  tokenCtr : Nat
deriving DecidableEq, Repr

/-! ## Point utilities (src/utils/point.utils.ts) -/

/-- Insert one point entry into a list sorted by `createdAt` ascending. -/
def insertPointByCreatedAt (p : Point) : List Point → List Point
  | [] => [p]
  | q :: qs =>
    if p.createdAt < q.createdAt then p :: q :: qs
    else q :: insertPointByCreatedAt p qs

/-- Sort point entries by `createdAt` ascending (the `orderBy` of the query). -/
def sortPointsByCreatedAt : List Point → List Point
  | [] => []
  | p :: ps => insertPointByCreatedAt p (sortPointsByCreatedAt ps)

/-- The EARNED entries of a user, oldest first (query step 1 of
`calculateUserPointBalance`). -/
def earnedSorted (points : List Point) (userId : Nat) : List Point :=
  sortPointsByCreatedAt
    (points.filter (fun p => p.userId == userId && p.ptType == PointType.EARNED))

/-- Total absolute USED amount of a user (query step 2 of
`calculateUserPointBalance`): `Math.abs` of the sum of USED amounts. -/
def totalUsedAbs (points : List Point) (userId : Nat) : Int :=
  (((points.filter (fun p => p.userId == userId && p.ptType == PointType.USED)).map
      (fun p : Point => p.amount)).sum).natAbs

/-- Whether an entry counts as unexpired: `!point.expiredAt || point.expiredAt > now`. -/
def pointUnexpired (p : Point) (now : Int) : Bool :=
  match p.expiredAt with
  | none => true
  | some e => decide (e > now)

/-- The FIFO consumption loop of `calculateUserPointBalance` (step 3),
threading the running `totalUsed` pool through the EARNED entries in order. -/
def balanceLoop (now : Int) : List Point → Int → Int
  | [], _ => 0
  | p :: ps, totalUsed =>
    let available := p.amount
    let consumed := if totalUsed > 0 then min available totalUsed else 0
    let available' := available - consumed
    let contrib :=
      if available' > 0 then
        if pointUnexpired p now then available' else 0
      else 0
    contrib + balanceLoop now ps (totalUsed - consumed)

/-- `calculateUserPointBalance(userId, prisma)` from src/utils/point.utils.ts,
as a pure function of the point table and the clock. -/
def calculateUserPointBalance (points : List Point) (userId : Nat) (now : Int) : Int :=
  balanceLoop now (earnedSorted points userId) (totalUsedAbs points userId)

/-- Spec-side description of the FIFO balance (refinement target for C6):
walk entries oldest first, consuming the USED pool from each entry in order,
and sum each entry's remaining amount exactly when the entry is unexpired. -/
def specFifoWalk (now : Int) : List Point → Int → Int
  | [], _ => 0
  | p :: ps, pool =>
    let consumed := min p.amount pool
    let remaining := p.amount - consumed
    (if pointUnexpired p now then remaining else 0) + specFifoWalk now ps (pool - consumed)

/-! ## Transaction service (src/modules/transaction/transaction.service.ts) -/

/-- Seat reservation applied to one ticket category in `createTransaction`
step 7: `availableSeat: { decrement: quantity }, sold: { increment: quantity }`. -/
def reserveSeats (t : TicketType) (qty : Int) : TicketType :=
  { t with availableSeat := t.availableSeat - qty, sold := t.sold + qty }

/-- Seat release applied in `rollbackTransaction` step 1:
`availableSeat: { increment: ticketQty }, sold: { decrement: ticketQty }`. -/
def releaseSeats (t : TicketType) (qty : Int) : TicketType :=
  { t with availableSeat := t.availableSeat + qty, sold := t.sold - qty }

/-! ### IEEE-754 binary64 model

JS numbers are binary64 doubles, and the PERCENTAGE voucher discount
`Math.floor(subtotal * (discountAmount / 100))` is sensitive to their
rounding (e.g. `100000 * (29 / 100)` evaluates to `28999.999999999996`).
A finite double is represented by its exact value `m * 2^e`; each operation
rounds the exact rational result to 53 significant bits, round-to-nearest
ties-to-even.  Overflow to infinity (`|value| >= 2^1024`) and subnormal
underflow (`|value| < 2^-1022`) are outside the range these monetary
computations can reach and are not modelled. -/

/-- `⌊log2 n⌋` for `1 ≤ n < 2^8191`, by binary search on the exponent
(kernel-computable, unlike `Nat.log2`). -/
def blog (n : Nat) : Nat :=
  [4096, 2048, 1024, 512, 256, 128, 64, 32, 16, 8, 4, 2, 1].foldl
    (fun acc j => if Nat.shiftLeft 1 (acc + j) ≤ n then acc + j else acc) 0

/-- Round the positive rational `n / d` to 53 significant bits,
round-to-nearest ties-to-even: returns `(m, e)` with value `m * 2^e` and
`2^52 ≤ m ≤ 2^53`. -/
def roundPos (n d : Nat) : Nat × Int :=
  let e0 : Int := (blog n : Int) - (blog d : Int) - 52
  let shift : Int → Nat × Nat := fun e =>
    if 0 ≤ e then (n, d * 2 ^ e.toNat) else (n * 2 ^ (-e).toNat, d)
  let e1 : Int :=
    let (n1, d1) := shift e0
    if n1 < 2 ^ 52 * d1 then e0 - 1
    else if 2 ^ 53 * d1 ≤ n1 then e0 + 1
    else e0
  let (n2, d2) := shift e1
  let s := n2 / d2
  let r := n2 % d2
  let m :=
    if d2 < 2 * r then s + 1
    else if 2 * r < d2 then s
    else if s % 2 = 0 then s else s + 1
  (m, e1)

/-- A finite binary64 value `m * 2^e` (the sign lives in `m`). -/
structure F64 where
  m : Int
  e : Int
deriving DecidableEq, Repr

/-- The binary64 nearest to `(n / d) * 2^sh` (ties to even). -/
def roundF64 (n d sh : Int) : F64 :=
  if n = 0 ∨ d = 0 then ⟨0, 0⟩
  else
    let sgn : Int := if (0 < n ∧ 0 < d) ∨ (n < 0 ∧ d < 0) then 1 else -1
    let nn := n.natAbs
    let dd := d.natAbs
    let (nn, dd) :=
      if 0 ≤ sh then (nn * 2 ^ sh.toNat, dd) else (nn, dd * 2 ^ (-sh).toNat)
    let (m, e) := roundPos nn dd
    ⟨sgn * m, e⟩

/-- An integer as a double (exact for `|x| < 2^53`). -/
def F64.ofInt (x : Int) : F64 := roundF64 x 1 0

/-- Correctly rounded double multiplication. -/
def F64.mul (a b : F64) : F64 := roundF64 (a.m * b.m) 1 (a.e + b.e)

/-- Correctly rounded double division. -/
def F64.div (a b : F64) : F64 := roundF64 a.m b.m (a.e - b.e)

/-- `Math.floor` of a finite double, as an integer. -/
def F64.floorInt (x : F64) : Int :=
  if 0 ≤ x.e then x.m * 2 ^ x.e.toNat else Int.fdiv x.m (2 ^ (-x.e).toNat)

/-- `Math.floor(subtotal * (discountAmount / 100))` evaluated in binary64
arithmetic, exactly as the JS code computes the PERCENTAGE voucher discount. -/
def jsPercentDiscount (subtotal amt : Int) : Int :=
  F64.floorInt (F64.mul (F64.ofInt subtotal) (F64.div (F64.ofInt amt) (F64.ofInt 100)))

/-- Voucher lookup + discount computation (createTransaction step 3).
The query filters by event, code and validity window; a found voucher whose
`usedCount` has reached `usageLimit` raises the usage-limit error. -/
def resolveVoucher (db : DB) (eventId : Nat) (voucherCode : Option String)
    (subtotal : Int) (now : Int) : Except ApiError (Int × Option Nat) :=
  match voucherCode with
  | none => .ok (0, none)
  | some code =>
    match db.vouchers.find? (fun v =>
        v.eventId == eventId && v.code == code &&
        decide (v.startDate ≤ now) && decide (v.endDate ≥ now)) with
    | some v =>
      if v.usedCount ≥ v.usageLimit then
        .error ⟨"Voucher usage limit exceeded", 400⟩
      else
        let d :=
          if v.discountType == DiscountType.PERCENTAGE then
            jsPercentDiscount subtotal v.discountAmount
          else
            min v.discountAmount subtotal
        .ok (d, some v.id)
    | none => .error ⟨"Invalid or expired voucher", 400⟩

/-- The `userWithRole` lookup inside the coupon branch (`select: { role: true }`
with optional chaining on the result). -/
def userRole (db : DB) (userId : Nat) : Option String :=
  match db.users.find? (fun u => u.id == userId) with
  | some u => some u.role
  | none => none

/-- Coupon lookup + discount computation (createTransaction step 4), including
the organizer-role restriction on coupon use. -/
def resolveCoupon (db : DB) (userId : Nat) (couponCode : Option String)
    (subtotal voucherDiscount : Int) (now : Int) : Except ApiError (Int × Option Nat) :=
  match couponCode with
  | none => .ok (0, none)
  | some code =>
    match db.coupons.find? (fun c =>
        c.userId == userId && c.code == code &&
        decide (c.expiredAt ≥ now) && c.isUsed == false) with
    | none => .error ⟨"Invalid or expired coupon", 400⟩
    | some c =>
      if userRole db userId == some "ORGANIZER" then
        .error ⟨"Referral reward is only available for customers", 400⟩
      else
        .ok (min c.discountAmount (subtotal - voucherDiscount), some c.id)

/-- Payment deadline: `expiredAt.setHours(expiredAt.getHours() + 2)`,
two hours in milliseconds. -/
def twoHoursMs : Int := 7200000

/-- The transaction row written in createTransaction step 11. -/
def mkCreatedTx (txId userId eventId ticketTypeId : Nat)
    (quantity subtotal pointsToDeduct finalPrice now : Int)
    (voucherId couponId : Option Nat) : TransactionRow :=
  { id := txId,
    userId := userId,
    eventId := eventId,
    ticketTypeId := ticketTypeId,
    voucherId := voucherId,
    couponId := couponId,
    ticketQty := quantity,
    totalPrice := subtotal,
    pointsUsed := pointsToDeduct,
    finalPrice := finalPrice,
    expiredAt := now + twoHoursMs,
    status := TxStatus.WAITING_PAYMENT,
    paymentProof := none,
    rejectionReason := none,
    createdAt := now,
    updatedAt := now }

/-- The USED point-ledger entry written in createTransaction step 10. -/
def mkUsedPoint (pid userId : Nat) (pointsToDeduct : Int) (eventTitle : String)
    (now : Int) : Point :=
  { id := pid,
    userId := userId,
    amount := -pointsToDeduct,
    ptType := PointType.USED,
    createdAt := now,
    expiredAt := none,
    description := "Used for transaction on event: " ++ eventTitle }

@[simp] theorem mkCreatedTx_id (a b c d : Nat) (q s p f n : Int) (v k : Option Nat) :
    (mkCreatedTx a b c d q s p f n v k).id = a := rfl

@[simp] theorem mkCreatedTx_userId (a b c d : Nat) (q s p f n : Int) (v k : Option Nat) :
    (mkCreatedTx a b c d q s p f n v k).userId = b := rfl

@[simp] theorem mkCreatedTx_eventId (a b c d : Nat) (q s p f n : Int) (v k : Option Nat) :
    (mkCreatedTx a b c d q s p f n v k).eventId = c := rfl

@[simp] theorem mkCreatedTx_ticketTypeId (a b c d : Nat) (q s p f n : Int) (v k : Option Nat) :
    (mkCreatedTx a b c d q s p f n v k).ticketTypeId = d := rfl

@[simp] theorem mkCreatedTx_voucherId (a b c d : Nat) (q s p f n : Int) (v k : Option Nat) :
    (mkCreatedTx a b c d q s p f n v k).voucherId = v := rfl

@[simp] theorem mkCreatedTx_couponId (a b c d : Nat) (q s p f n : Int) (v k : Option Nat) :
    (mkCreatedTx a b c d q s p f n v k).couponId = k := rfl

@[simp] theorem mkCreatedTx_ticketQty (a b c d : Nat) (q s p f n : Int) (v k : Option Nat) :
    (mkCreatedTx a b c d q s p f n v k).ticketQty = q := rfl

@[simp] theorem mkCreatedTx_totalPrice (a b c d : Nat) (q s p f n : Int) (v k : Option Nat) :
    (mkCreatedTx a b c d q s p f n v k).totalPrice = s := rfl

@[simp] theorem mkCreatedTx_pointsUsed (a b c d : Nat) (q s p f n : Int) (v k : Option Nat) :
    (mkCreatedTx a b c d q s p f n v k).pointsUsed = p := rfl

@[simp] theorem mkCreatedTx_finalPrice (a b c d : Nat) (q s p f n : Int) (v k : Option Nat) :
    (mkCreatedTx a b c d q s p f n v k).finalPrice = f := rfl

@[simp] theorem mkCreatedTx_status (a b c d : Nat) (q s p f n : Int) (v k : Option Nat) :
    (mkCreatedTx a b c d q s p f n v k).status = TxStatus.WAITING_PAYMENT := rfl

@[simp] theorem mkUsedPoint_userId (a b : Nat) (p : Int) (t : String) (n : Int) :
    (mkUsedPoint a b p t n).userId = b := rfl

@[simp] theorem mkUsedPoint_amount (a b : Nat) (p : Int) (t : String) (n : Int) :
    (mkUsedPoint a b p t n).amount = -p := rfl

@[simp] theorem mkUsedPoint_ptType (a b : Nat) (p : Int) (t : String) (n : Int) :
    (mkUsedPoint a b p t n).ptType = PointType.USED := rfl

@[simp] theorem mkUsedPoint_description (a b : Nat) (p : Int) (t : String) (n : Int) :
    (mkUsedPoint a b p t n).description = "Used for transaction on event: " ++ t := rfl

/-- Writes of a successful `createTransaction` (steps 7-11): seat reservation,
voucher counter, coupon flag, point deduction + USED ledger entry, and the new
transaction row.  Returns the updated database and the created row. -/
def applyCreateWrites (db : DB) (userId eventId ticketTypeId : Nat) (quantity : Int)
    (eventTitle : String) (voucherId couponId : Option Nat)
    (subtotal pointsToDeduct finalPrice : Int) (now : Int) : DB × TransactionRow :=
  let newTx : TransactionRow := mkCreatedTx db.nextTxId userId eventId ticketTypeId
    quantity subtotal pointsToDeduct finalPrice now voucherId couponId
  ({ db with
      ticketTypes := db.ticketTypes.map (fun t : TicketType =>
        if t.id == ticketTypeId then reserveSeats t quantity else t),
      vouchers :=
        match voucherId with
        | some vid => db.vouchers.map (fun v : Voucher =>
            if v.id == vid then { v with usedCount := v.usedCount + 1 } else v)
        | none => db.vouchers,
      coupons :=
        match couponId with
        | some cid => db.coupons.map (fun c : Coupon =>
            if c.id == cid then { c with isUsed := true } else c)
        | none => db.coupons,
      users :=
        if pointsToDeduct > 0 then
          db.users.map (fun u : UserRow =>
            if u.id == userId then { u with point := u.point - pointsToDeduct } else u)
        else db.users,
      points :=
        if pointsToDeduct > 0 then
          db.points ++ [mkUsedPoint db.nextPointId userId pointsToDeduct eventTitle now]
        else db.points,
      nextPointId := if pointsToDeduct > 0 then db.nextPointId + 1 else db.nextPointId,
      transactions := db.transactions ++ [newTx],
      nextTxId := db.nextTxId + 1 },
   newTx)

/-- Request body of `createTransaction`. -/
structure CreateTransactionBody where
  ticketTypeId : Nat
  quantity : Int
  voucherCode : Option String
  couponCode : Option String
  pointsToUse : Int
deriving DecidableEq, Repr

/-- `TransactionService.createTransaction`.  The whole method body runs inside
one `prisma.$transaction`, so every error path returns the original database. -/
def createTransaction (db : DB) (userId eventId : Nat) (body : CreateTransactionBody)
    (now : Int) : DB × Except ApiError TransactionRow :=
  if body.quantity ≤ 0 then
    (db, .error ⟨"Quantity must be greater than 0", 400⟩)
  else if body.pointsToUse < 0 then
    (db, .error ⟨"Points to use cannot be negative", 400⟩)
  else
    match db.ticketTypes.find? (fun t => t.id == body.ticketTypeId) with
    | none => (db, .error ⟨"Ticket type not found", 404⟩)
    | some ticketType =>
      -- relation load of `include: { event: true }`
      match db.events.find? (fun e => e.id == ticketType.eventId) with
      | none => (db, .error ⟨"Ticket type not found", 404⟩)
      | some event =>
        if ticketType.eventId ≠ eventId then
          (db, .error ⟨"Ticket type does not belong to this event", 400⟩)
        else
          let selfPurchase : Bool :=
            match event.organizerId with
            | none => false
            | some orgId =>
              match db.organizers.find? (fun o => o.id == orgId) with
              | none => false
              | some org => org.userId == userId
          if selfPurchase then
            (db, .error ⟨"You cannot purchase tickets for your own event", 403⟩)
          else if ticketType.availableSeat < body.quantity then
            (db, .error ⟨"Not enough seats available", 400⟩)
          else
            let subtotal := ticketType.price * body.quantity
            match resolveVoucher db eventId body.voucherCode subtotal now with
            | .error e => (db, .error e)
            | .ok (voucherDiscount, voucherId) =>
              match resolveCoupon db userId body.couponCode subtotal voucherDiscount now with
              | .error e => (db, .error e)
              | .ok (couponDiscount, couponId) =>
                match db.users.find? (fun u => u.id == userId) with
                | none => (db, .error ⟨"User not found", 404⟩)
                | some _user =>
                  let availablePoints := calculateUserPointBalance db.points userId now
                  if body.pointsToUse > availablePoints then
                    (db, .error ⟨"Insufficient valid points", 400⟩)
                  else
                    let pointsToDeduct := min body.pointsToUse
                      (min availablePoints (subtotal - voucherDiscount - couponDiscount))
                    let finalPrice := max 0
                      (subtotal - voucherDiscount - couponDiscount - pointsToDeduct)
                    let res := applyCreateWrites db userId eventId
                      body.ticketTypeId body.quantity event.title voucherId couponId
                      subtotal pointsToDeduct finalPrice now
                    (res.1, .ok res.2)

/-- The `deleteMany` filter of the point rollback: USED entries of the user
whose description contains the literal `"transaction on event"` and whose
amount is exactly `-pointsUsed`. -/
def usedEntryMatches (userId : Nat) (pointsUsed : Int) (p : Point) : Bool :=
  p.userId == userId && p.ptType == PointType.USED &&
    decide ("transaction on event".toList <:+: p.description.toList) &&
    p.amount == -pointsUsed

/-- `TransactionService.rollbackTransaction` (private helper): one
`$transaction` reversing seats, voucher counter, coupon flag and points. -/
def rollbackTransaction (db : DB) (transactionId : Nat) : DB × Except ApiError Unit :=
  match db.transactions.find? (fun t => t.id == transactionId) with
  | none => (db, .error ⟨"Transaction not found", 404⟩)
  | some transaction =>
    ({ db with
        ticketTypes := db.ticketTypes.map (fun t : TicketType =>
          if t.id == transaction.ticketTypeId then releaseSeats t transaction.ticketQty
          else t),
        vouchers :=
          match transaction.voucherId with
          | some vid => db.vouchers.map (fun v : Voucher =>
              if v.id == vid then { v with usedCount := v.usedCount - 1 } else v)
          | none => db.vouchers,
        coupons :=
          match transaction.couponId with
          | some cid => db.coupons.map (fun c : Coupon =>
              if c.id == cid then { c with isUsed := false } else c)
          | none => db.coupons,
        users :=
          if transaction.pointsUsed > 0 then
            db.users.map (fun u : UserRow =>
              if u.id == transaction.userId then
                { u with point := u.point + transaction.pointsUsed }
              else u)
          else db.users,
        points :=
          if transaction.pointsUsed > 0 then
            db.points.filter (fun p =>
              !(usedEntryMatches transaction.userId transaction.pointsUsed p))
          else db.points },
     .ok ())

/-- `TransactionService.uploadPaymentProof`.  On a passed deadline the rollback
(its own committed `$transaction`) persists while the method itself throws,
and the transaction row is left untouched. -/
def uploadPaymentProof (db : DB) (transactionId userId : Nat) (paymentProof : String)
    (now : Int) : DB × Except ApiError TransactionRow :=
  match db.transactions.find? (fun t => t.id == transactionId) with
  | none => (db, .error ⟨"Transaction not found", 404⟩)
  | some transaction =>
    if transaction.userId ≠ userId then
      (db, .error ⟨"You don't have permission to update this transaction", 403⟩)
    else if transaction.status ≠ TxStatus.WAITING_PAYMENT then
      (db, .error ⟨"Transaction is not in waiting payment status", 400⟩)
    else if now > transaction.expiredAt then
      let (db1, r) := rollbackTransaction db transactionId
      match r with
      | .error e => (db1, .error e)
      | .ok _ => (db1, .error ⟨"Payment deadline has expired", 400⟩)
    else
      let updated := { transaction with
        paymentProof := some paymentProof,
        status := TxStatus.WAITING_CONFIRMATION,
        updatedAt := now }
      ({ db with transactions := db.transactions.map (fun t =>
          if t.id == transactionId then updated else t) },
       .ok updated)

/-- One attendee row as written by the settlement loop of
`confirmTransaction`. -/
def mkAttendee (t : TransactionRow) (aid : Nat) (tok : String) : Attendee :=
  { id := aid,
    transactionId := t.id,
    userId := t.userId,
    eventId := t.eventId,
    ticketTypeId := t.ticketTypeId,
    qrToken := tok,
    checkedIn := false,
    checkedInAt := none }

/-- The attendee-creation loop of `confirmTransaction`: one
`prisma.attendee.create` per unit of `ticketQty`, each with a token from the
external generator. -/
def createAttendees (db : DB) (t : TransactionRow) (tokenGen : Nat → String) :
    Nat → DB
  | 0 => db
  | n + 1 =>
    let a : Attendee := mkAttendee t db.nextAttendeeId (tokenGen db.tokenCtr)
    createAttendees
      { db with attendees := db.attendees ++ [a],
                nextAttendeeId := db.nextAttendeeId + 1,
                tokenCtr := db.tokenCtr + 1 }
      t tokenGen n

/-- `TransactionService.confirmTransaction`: status precondition, transition to
`DONE`, then settlement (one attendee per unit of quantity). -/
def confirmTransaction (db : DB) (transactionId organizerUserId : Nat)
    (tokenGen : Nat → String) (now : Int) : DB × Except ApiError TransactionRow :=
  match db.organizers.find? (fun o => o.userId == organizerUserId) with
  | none => (db, .error ⟨"Organizer not found", 404⟩)
  | some organizer =>
    match db.transactions.find? (fun t => t.id == transactionId) with
    | none => (db, .error ⟨"Transaction not found", 404⟩)
    | some transaction =>
      match db.events.find? (fun e => e.id == transaction.eventId) with
      | none => (db, .error ⟨"Transaction not found", 404⟩)
      | some event =>
        if event.organizerId ≠ some organizer.id then
          (db, .error ⟨"You don't have permission to confirm this transaction", 403⟩)
        else if transaction.status ≠ TxStatus.WAITING_CONFIRMATION then
          (db, .error ⟨"Transaction is not in waiting confirmation status", 400⟩)
        else
          let updated := { transaction with status := TxStatus.DONE, updatedAt := now }
          let db1 := { db with transactions := db.transactions.map (fun t =>
              if t.id == transactionId then updated else t) }
          let db2 := createAttendees db1 updated tokenGen updated.ticketQty.toNat
          (db2, .ok updated)

/-- `TransactionService.rejectTransaction`: status precondition, rollback, then
transition to `REJECTED` with the optional reason. -/
def rejectTransaction (db : DB) (transactionId organizerUserId : Nat)
    (reason : Option String) (now : Int) : DB × Except ApiError TransactionRow :=
  match db.organizers.find? (fun o => o.userId == organizerUserId) with
  | none => (db, .error ⟨"Organizer not found", 404⟩)
  | some organizer =>
    match db.transactions.find? (fun t => t.id == transactionId) with
    | none => (db, .error ⟨"Transaction not found", 404⟩)
    | some transaction =>
      match db.events.find? (fun e => e.id == transaction.eventId) with
      | none => (db, .error ⟨"Transaction not found", 404⟩)
      | some event =>
        if event.organizerId ≠ some organizer.id then
          (db, .error ⟨"You don't have permission to reject this transaction", 403⟩)
        else if transaction.status ≠ TxStatus.WAITING_CONFIRMATION then
          (db, .error ⟨"Transaction is not in waiting confirmation status", 400⟩)
        else
          let (db1, r) := rollbackTransaction db transactionId
          match r with
          | .error e => (db1, .error e)
          | .ok _ =>
            let updated := { transaction with
              status := TxStatus.REJECTED, rejectionReason := reason, updatedAt := now }
            ({ db1 with transactions := db1.transactions.map (fun t =>
                if t.id == transactionId then updated else t) },
             .ok updated)

/-- `TransactionService.cancelTransaction`: owner + status precondition,
rollback, then transition to `CANCELLED`. -/
def cancelTransaction (db : DB) (transactionId userId : Nat) (now : Int) :
    DB × Except ApiError TransactionRow :=
  match db.transactions.find? (fun t => t.id == transactionId) with
  | none => (db, .error ⟨"Transaction not found", 404⟩)
  | some transaction =>
    if transaction.userId ≠ userId then
      (db, .error ⟨"You don't have permission to cancel this transaction", 403⟩)
    else if transaction.status ≠ TxStatus.WAITING_PAYMENT &&
            transaction.status ≠ TxStatus.WAITING_CONFIRMATION then
      (db, .error ⟨"Transaction cannot be cancelled at this stage", 400⟩)
    else
      let (db1, r) := rollbackTransaction db transactionId
      match r with
      | .error e => (db1, .error e)
      | .ok _ =>
        let updated := { transaction with status := TxStatus.CANCELLED, updatedAt := now }
        ({ db1 with transactions := db1.transactions.map (fun t =>
            if t.id == transactionId then updated else t) },
         .ok updated)

/-- `TransactionService.expireTransactions` (cron sweep): snapshot the
`WAITING_PAYMENT` transactions past their deadline, then rollback and mark each
one `EXPIRED`.  Returns the number of swept transactions. -/
def expireTransactions (db : DB) (now : Int) : DB × Nat :=
  let ids := (db.transactions.filter (fun t =>
      t.status == TxStatus.WAITING_PAYMENT && decide (t.expiredAt < now))).map
    (fun t => t.id)
  (ids.foldl (fun acc i =>
      let (d1, _) := rollbackTransaction acc i
      { d1 with transactions := d1.transactions.map (fun t =>
          if t.id == i then { t with status := TxStatus.EXPIRED, updatedAt := now }
          else t) })
    db,
   ids.length)

/-- Result of `checkIn` (the fields the spec talks about). -/
structure CheckInResult where
  success : Bool
  message : String
  checkedInAt : Option Int
deriving DecidableEq, Repr

/-- Status of an attendee's parent transaction (the
`include: { transaction: { select: { status: true } } }` relation load). -/
def txStatusForAttendee (db : DB) (a : Attendee) : Option TxStatus :=
  match db.transactions.find? (fun t => t.id == a.transactionId) with
  | some t => some t.status
  | none => none

/-- The `attendee.event.endDate && attendee.event.endDate < new Date()` guard. -/
def eventEndedForAttendee (db : DB) (a : Attendee) (now : Int) : Bool :=
  match (match db.events.find? (fun e => e.id == a.eventId) with
         | some ev => ev.endDate
         | none => none) with
  | some d => decide (d < now)
  | none => false

/-- `TransactionService.checkIn`: token lookup, DONE + event-not-ended guards,
idempotent informational result when already checked in, otherwise the
check-in mutation. -/
def checkIn (db : DB) (qrToken : String) (now : Int) : DB × Except ApiError CheckInResult :=
  match db.attendees.find? (fun a => a.qrToken == qrToken) with
  | none => (db, .error ⟨"Invalid ticket - QR code not found", 404⟩)
  | some attendee =>
    if txStatusForAttendee db attendee ≠ some TxStatus.DONE then
      (db, .error ⟨"Transaction is not confirmed", 400⟩)
    else
      if eventEndedForAttendee db attendee now then
        (db, .error ⟨"This event has already ended", 400⟩)
      else if attendee.checkedIn then
        (db, .ok { success := false, message := "Already checked in",
                   checkedInAt := attendee.checkedInAt })
      else
        ({ db with attendees := db.attendees.map (fun a =>
            if a.qrToken == qrToken then
              { a with checkedIn := true, checkedInAt := some now }
            else a) },
         .ok { success := true, message := "Check-in successful!",
               checkedInAt := some now })

/-! ## Helper lemmas -/

theorem mem_insertPointByCreatedAt {x p : Point} {l : List Point} :
    x ∈ insertPointByCreatedAt p l ↔ x = p ∨ x ∈ l := by
  induction l with
  | nil => simp [insertPointByCreatedAt]
  | cons q qs ih =>
    simp only [insertPointByCreatedAt]
    split
    · simp [or_comm, or_assoc, or_left_comm]
    · simp [ih, or_comm, or_assoc, or_left_comm]

theorem mem_sortPointsByCreatedAt {x : Point} {l : List Point} :
    x ∈ sortPointsByCreatedAt l ↔ x ∈ l := by
  induction l with
  | nil => simp [sortPointsByCreatedAt]
  | cons p ps ih => simp [sortPointsByCreatedAt, mem_insertPointByCreatedAt, ih]

theorem totalUsedAbs_nonneg (points : List Point) (userId : Nat) :
    0 ≤ totalUsedAbs points userId := by
  simp [totalUsedAbs]

/-- The code's FIFO loop coincides with the spec's description of the walk as
long as entry amounts are nonnegative and the consumption pool starts
nonnegative. -/
theorem balanceLoop_eq_specFifoWalk (now : Int) :
    ∀ (l : List Point) (pool : Int), (∀ p ∈ l, 0 ≤ p.amount) → 0 ≤ pool →
      balanceLoop now l pool = specFifoWalk now l pool := by
  intro l
  induction l with
  | nil => intro pool _ _; rfl
  | cons p ps ih =>
    intro pool hamts hpool
    have hp : 0 ≤ p.amount := hamts p (by simp)
    have hps : ∀ q ∈ ps, 0 ≤ q.amount := fun q hq => hamts q (by simp [hq])
    simp only [balanceLoop, specFifoWalk]
    by_cases h : pool > 0
    · rw [if_pos h, ih (pool - min p.amount pool) hps (by omega)]
      congr 1
      cases hu : pointUnexpired p now
      · simp only [Bool.false_eq_true, if_neg, ite_self]
        split <;> rfl
      · split_ifs <;> omega
    · have hpool0 : pool = 0 := by omega
      have hmin : min p.amount pool = 0 := by omega
      rw [if_neg h, hmin, ih (pool - 0) hps (by omega)]
      congr 1
      cases hu : pointUnexpired p now
      · simp only [Bool.false_eq_true, if_neg, ite_self]
        split <;> rfl
      · split_ifs <;> omega

/-- Example ledger for the FIFO scenario: EARNED 5000 (expires at 1000),
then EARNED 3000 (expires at 200), then 4000 USED. -/
def fifoExampleLedger : List Point :=
  [{ id := 1, userId := 7, amount := 5000, ptType := PointType.EARNED,
     createdAt := 0, expiredAt := some 1000, description := "earn a" },
   { id := 2, userId := 7, amount := 3000, ptType := PointType.EARNED,
     createdAt := 1, expiredAt := some 200, description := "earn b" },
   { id := 3, userId := 7, amount := -4000, ptType := PointType.USED,
     createdAt := 2, expiredAt := none, description := "use" }]

/-- C6: for every user and every set of point-ledger entries (with EARNED
amounts nonnegative, as the data model guarantees), the computed point balance
equals the spec's walk: EARNED entries oldest first, the total absolute USED
amount consumed from them in order, each entry's remaining amount counted
exactly when the entry is unexpired; and on the concrete example ledger
(EARNED 5000 then EARNED 3000, 4000 USED) the balance is 4000 while both
entries are unexpired, and 1000 once the second entry has expired. -/
theorem C6_fifo_balance :
    (∀ (points : List Point) (userId : Nat) (now : Int),
        (∀ p ∈ points, p.ptType = PointType.EARNED → 0 ≤ p.amount) →
        calculateUserPointBalance points userId now =
          specFifoWalk now (earnedSorted points userId) (totalUsedAbs points userId)) ∧
    calculateUserPointBalance fifoExampleLedger 7 100 = 4000 ∧
    calculateUserPointBalance fifoExampleLedger 7 250 = 1000 := by
  refine ⟨?_, by decide, by decide⟩
  intro points userId now h
  apply balanceLoop_eq_specFifoWalk
  · intro p hp
    have hmem : p ∈ points.filter
        (fun p => p.userId == userId && p.ptType == PointType.EARNED) := by
      simpa [earnedSorted, mem_sortPointsByCreatedAt] using hp
    rw [List.mem_filter] at hmem
    refine h p hmem.1 ?_
    have := hmem.2
    simp only [Bool.and_eq_true, beq_iff_eq] at this
    exact this.2
  · exact totalUsedAbs_nonneg points userId

/-- Witness for C6: the universally quantified conjunct instantiated on the
example ledger. -/
theorem C6_fifo_balance_witness :
    calculateUserPointBalance fifoExampleLedger 7 100 =
      specFifoWalk 100 (earnedSorted fifoExampleLedger 7)
        (totalUsedAbs fifoExampleLedger 7) :=
  C6_fifo_balance.1 fifoExampleLedger 7 100 (by decide)

/-- Characterization of a successful `createTransaction` run: all guards
passed, the resolvers succeeded, and the result is `applyCreateWrites` of the
computed pricing data. -/
theorem createTransaction_ok {db db' : DB} {userId eventId : Nat}
    {body : CreateTransactionBody} {now : Int} {tx : TransactionRow}
    (h : createTransaction db userId eventId body now = (db', .ok tx)) :
    ∃ tt ev vd vid cd cid,
      db.ticketTypes.find? (fun t => t.id == body.ticketTypeId) = some tt ∧
      db.events.find? (fun e => e.id == tt.eventId) = some ev ∧
      tt.eventId = eventId ∧
      0 < body.quantity ∧
      0 ≤ body.pointsToUse ∧
      body.quantity ≤ tt.availableSeat ∧
      resolveVoucher db eventId body.voucherCode (tt.price * body.quantity) now =
        .ok (vd, vid) ∧
      resolveCoupon db userId body.couponCode (tt.price * body.quantity) vd now =
        .ok (cd, cid) ∧
      body.pointsToUse ≤ calculateUserPointBalance db.points userId now ∧
      (db', tx) = applyCreateWrites db userId eventId body.ticketTypeId body.quantity
        ev.title vid cid (tt.price * body.quantity)
        (min body.pointsToUse (min (calculateUserPointBalance db.points userId now)
          (tt.price * body.quantity - vd - cd)))
        (max 0 (tt.price * body.quantity - vd - cd -
          min body.pointsToUse (min (calculateUserPointBalance db.points userId now)
            (tt.price * body.quantity - vd - cd)))) now := by
  simp only [createTransaction] at h
  repeat' split at h
  any_goals exact Except.noConfusion (congrArg Prod.snd h)
  simp only [Prod.mk.injEq, Except.ok.injEq] at h
  rename_i hq hp xA tt htt xB ev hev hne hself havail xC vd vid hvres xD cd cid
    hcres xE u huser hpts
  obtain ⟨h1, h2⟩ := h
  refine ⟨tt, ev, vd, vid, cd, cid, htt, hev, by omega, by omega, by omega, by omega,
    hvres, hcres, by omega, ?_⟩
  rw [← h1, ← h2]

/-- A found, under-limit voucher resolves to the code's discount formula:
the binary64 evaluation of `Math.floor(subtotal * (pct / 100))` for
PERCENTAGE, `min(fixed, subtotal)` for FIXED. -/
theorem resolveVoucher_found {db : DB} {eventId : Nat} {code : String}
    {subtotal now : Int} {v : Voucher}
    (hfind : db.vouchers.find? (fun v =>
        v.eventId == eventId && v.code == code &&
        decide (v.startDate ≤ now) && decide (v.endDate ≥ now)) = some v)
    (hlim : v.usedCount < v.usageLimit) :
    resolveVoucher db eventId (some code) subtotal now =
      .ok ((if v.discountType = DiscountType.PERCENTAGE
            then jsPercentDiscount subtotal v.discountAmount
            else min v.discountAmount subtotal), some v.id) := by
  simp only [resolveVoucher, hfind]
  rw [if_neg (by omega)]
  cases hd : v.discountType
  · simp [hd]
  · simp [hd]

/-- A found coupon (for a non-organizer user) resolves to
`min(coupon.discountAmount, subtotal - voucherDiscount)`. -/
theorem resolveCoupon_found {db : DB} {userId : Nat} {code : String}
    {subtotal voucherDiscount now : Int} {c : Coupon}
    (hfind : db.coupons.find? (fun c =>
        c.userId == userId && c.code == code &&
        decide (c.expiredAt ≥ now) && c.isUsed == false) = some c)
    (hrole : userRole db userId ≠ some "ORGANIZER") :
    resolveCoupon db userId (some code) subtotal voucherDiscount now =
      .ok (min c.discountAmount (subtotal - voucherDiscount), some c.id) := by
  simp only [resolveCoupon, hfind]
  rw [if_neg (by simpa using hrole)]

theorem applyCreateWrites_snd (db : DB) (userId eventId ticketTypeId : Nat)
    (quantity : Int) (eventTitle : String) (voucherId couponId : Option Nat)
    (subtotal pointsToDeduct finalPrice : Int) (now : Int) :
    (applyCreateWrites db userId eventId ticketTypeId quantity eventTitle voucherId
        couponId subtotal pointsToDeduct finalPrice now).2 =
      mkCreatedTx db.nextTxId userId eventId ticketTypeId quantity subtotal
        pointsToDeduct finalPrice now voucherId couponId := rfl

/-- C4 (amended): in every successful purchase the voucher discount is the
binary64 evaluation of `Math.floor(subtotal * (pct / 100))` for a PERCENTAGE
voucher — which agrees with the exact `floor(subtotal * pct / 100)` on the
spec's 10%-of-100000 scenario but not universally (see the counterexample) —
or `min(fixed, subtotal)` for a FIXED voucher; the coupon discount is
`min(coupon.discountAmount, subtotal - voucherDiscount)` computed after the
voucher discount; and the stored `finalPrice` is
`max 0 (subtotal - voucherDiscount - couponDiscount - pointsUsed)`. -/
theorem C4_discount_and_final_price :
    (∀ (db : DB) (eventId : Nat) (code : String) (subtotal now : Int) (v : Voucher),
        db.vouchers.find? (fun v => v.eventId == eventId && v.code == code &&
          decide (v.startDate ≤ now) && decide (v.endDate ≥ now)) = some v →
        v.usedCount < v.usageLimit →
        resolveVoucher db eventId (some code) subtotal now =
          .ok ((if v.discountType = DiscountType.PERCENTAGE
                then jsPercentDiscount subtotal v.discountAmount
                else min v.discountAmount subtotal), some v.id)) ∧
    (∀ (db : DB) (userId : Nat) (code : String) (subtotal voucherDiscount now : Int)
        (c : Coupon),
        db.coupons.find? (fun c => c.userId == userId && c.code == code &&
          decide (c.expiredAt ≥ now) && c.isUsed == false) = some c →
        userRole db userId ≠ some "ORGANIZER" →
        resolveCoupon db userId (some code) subtotal voucherDiscount now =
          .ok (min c.discountAmount (subtotal - voucherDiscount), some c.id)) ∧
    (∀ (db db' : DB) (userId eventId : Nat) (body : CreateTransactionBody)
        (now : Int) (tx : TransactionRow),
        createTransaction db userId eventId body now = (db', .ok tx) →
        ∃ vd vid cd cid,
          resolveVoucher db eventId body.voucherCode tx.totalPrice now = .ok (vd, vid) ∧
          resolveCoupon db userId body.couponCode tx.totalPrice vd now = .ok (cd, cid) ∧
          tx.finalPrice = max 0 (tx.totalPrice - vd - cd - tx.pointsUsed)) ∧
    jsPercentDiscount 100000 10 = 10000 := by
  refine ⟨fun db eventId code subtotal now v hfind hlim =>
      resolveVoucher_found hfind hlim,
    fun db userId code subtotal voucherDiscount now c hfind hrole =>
      resolveCoupon_found hfind hrole,
    fun db db' userId eventId body now tx h => ?_,
    by decide⟩
  obtain ⟨tt, ev, vd, vid, cd, cid, htt, hev, hne, hq, hp, hav, hvres, hcres, hbal, h10⟩ :=
    createTransaction_ok h
  have htx : tx = (applyCreateWrites db userId eventId body.ticketTypeId body.quantity
      ev.title vid cid (tt.price * body.quantity)
      (min body.pointsToUse (min (calculateUserPointBalance db.points userId now)
        (tt.price * body.quantity - vd - cd)))
      (max 0 (tt.price * body.quantity - vd - cd -
        min body.pointsToUse (min (calculateUserPointBalance db.points userId now)
          (tt.price * body.quantity - vd - cd)))) now).2 := congrArg Prod.snd h10
  rw [applyCreateWrites_snd] at htx
  refine ⟨vd, vid, cd, cid, ?_, ?_, ?_⟩
  · rw [htx]
    exact hvres
  · rw [htx]
    exact hcres
  · rw [htx]
    rfl

/-! ## Concrete fixtures used by witnesses and counterexamples -/

def emptyDB : DB :=
  { ticketTypes := []
    events := []
    organizers := []
    vouchers := []
    coupons := []
    points := []
    users := []
    transactions := []
    attendees := []
    nextPointId := 1
    nextTxId := 1
    nextAttendeeId := 1
    tokenCtr := 0 }

/-- A ticket category with 9 of 10 seats free and one sold. -/
def ttFix : TicketType :=
  { id := 1, eventId := 1, price := 1000, totalSeat := 10, availableSeat := 9, sold := 1 }

/-- An event without organizer profile (no self-purchase guard in play). -/
def evFix : EventRow := { id := 1, organizerId := none, title := "Rock", endDate := none }

/-- A customer who earned 2000 points and spent 500 of them on an earlier
transaction (cached total 1500, FIFO balance 1500). -/
def ptDb : DB :=
  { emptyDB with
    ticketTypes := [ttFix]
    events := [evFix]
    users := [{ id := 1, point := 1500, role := "CUSTOMER" }]
    points := [{ id := 1, userId := 1, amount := 2000, ptType := PointType.EARNED,
                 createdAt := 0, expiredAt := none, description := "signup bonus" },
               { id := 2, userId := 1, amount := -500, ptType := PointType.USED,
                 createdAt := 1, expiredAt := none,
                 description := "Used for transaction on event: Rock" }]
    nextPointId := 3 }

/-- Purchase of one ticket paying 500 points. -/
def ptBody : CreateTransactionBody :=
  { ticketTypeId := 1, quantity := 1, voucherCode := none, couponCode := none,
    pointsToUse := 500 }

/-- The transaction row `createTransaction ptDb 1 1 ptBody 10` creates. -/
def ptTx : TransactionRow :=
  { id := 1
    userId := 1
    eventId := 1
    ticketTypeId := 1
    voucherId := none
    couponId := none
    ticketQty := 1
    totalPrice := 1000
    pointsUsed := 500
    finalPrice := 500
    expiredAt := 7200010
    status := TxStatus.WAITING_PAYMENT
    paymentProof := none
    rejectionReason := none
    createdAt := 10
    updatedAt := 10 }

theorem createTransaction_ptDb :
    createTransaction ptDb 1 1 ptBody 10 =
      ((createTransaction ptDb 1 1 ptBody 10).1, .ok ptTx) := rfl

/-- A FIXED voucher fixture. -/
def vFix : Voucher :=
  { id := 7, eventId := 1, code := "V", discountType := DiscountType.FIXED,
    discountAmount := 500, startDate := 0, endDate := 100, usageLimit := 5,
    usedCount := 0 }

def vDb : DB := { emptyDB with vouchers := [vFix] }

/-- A coupon fixture for a customer user. -/
def cFix : Coupon :=
  { id := 3, userId := 1, code := "C", discountAmount := 200, expiredAt := 100,
    isUsed := false }

def cDb : DB :=
  { emptyDB with coupons := [cFix], users := [{ id := 1, point := 0, role := "CUSTOMER" }] }

/-- Witness for C4: the hypothesis-bearing conjuncts instantiated on concrete
fixtures. -/
theorem C4_discount_and_final_price_witness :
    resolveVoucher vDb 1 (some "V") 1000 50 =
      .ok ((if vFix.discountType = DiscountType.PERCENTAGE
            then jsPercentDiscount 1000 vFix.discountAmount
            else min vFix.discountAmount 1000), some vFix.id) ∧
    resolveCoupon cDb 1 (some "C") 1000 0 50 =
      .ok (min cFix.discountAmount (1000 - 0), some cFix.id) ∧
    (∃ vd vid cd cid,
      resolveVoucher ptDb 1 none ptTx.totalPrice 10 = .ok (vd, vid) ∧
      resolveCoupon ptDb 1 none ptTx.totalPrice vd 10 = .ok (cd, cid) ∧
      ptTx.finalPrice = max 0 (ptTx.totalPrice - vd - cd - ptTx.pointsUsed)) := by
  refine ⟨C4_discount_and_final_price.1 vDb 1 "V" 1000 50 vFix rfl (by decide),
    C4_discount_and_final_price.2.1 cDb 1 "C" 1000 0 50 cFix rfl (by decide),
    C4_discount_and_final_price.2.2.1 ptDb _ 1 1 ptBody 10 ptTx createTransaction_ptDb⟩

/-- A PERCENTAGE 29% voucher. -/
def vPct : Voucher :=
  { id := 9, eventId := 1, code := "P", discountType := DiscountType.PERCENTAGE,
    discountAmount := 29, startDate := 0, endDate := 100, usageLimit := 5,
    usedCount := 0 }

def vPctDb : DB := { emptyDB with vouchers := [vPct] }

/-- Counterexample for C4: at subtotal 100000 with a 29% voucher the code's
binary64 evaluation of `Math.floor(100000 * (29 / 100))` yields 28999 — the
double nearest `29 / 100` lies below 0.29 and the product rounds below
29000 — while the claim's formula `floor(subtotal * pct / 100)` gives 29000. -/
theorem C4_counterexample_binary64_floor :
    resolveVoucher vPctDb 1 (some "P") 100000 50 = .ok (28999, some 9) ∧
    jsPercentDiscount 100000 29 = 28999 ∧
    ⌊((100000 * 29 : Int) : ℚ) / 100⌋ = 29000 ∧
    (28999 : Int) ≠ 29000 := by
  refine ⟨rfl, by decide, by norm_num, by decide⟩

/-- A purchase requesting more points (2000) than the computed balance (1500). -/
def ptBodyOver : CreateTransactionBody :=
  { ticketTypeId := 1, quantity := 1, voucherCode := none, couponCode := none,
    pointsToUse := 2000 }

/-- Counterexample for C5: with a computed balance of 1500, requesting 2000
points does not succeed with the points clamped to the balance — the call
fails with the insufficient-points validation error and leaves the database
unchanged. -/
theorem C5_counterexample_over_request_fails :
    calculateUserPointBalance ptDb.points 1 10 = 1500 ∧
    ptBodyOver.pointsToUse = 2000 ∧
    createTransaction ptDb 1 1 ptBodyOver 10 =
      (ptDb, .error ⟨"Insufficient valid points", 400⟩) := ⟨rfl, rfl, rfl⟩

/-- C5 (amended): a successful `createTransaction` applies exactly
`min(requested, computedBalance, remainingPayableAfterOtherDiscounts)` points;
however, a request for more points than the computed balance does not succeed
with clamping — every successful call satisfies `requested <= computedBalance`
(over-requests are rejected with a validation error). -/
theorem C5_points_applied_amended :
    ∀ (db db' : DB) (userId eventId : Nat) (body : CreateTransactionBody)
      (now : Int) (tx : TransactionRow),
      createTransaction db userId eventId body now = (db', .ok tx) →
      body.pointsToUse ≤ calculateUserPointBalance db.points userId now ∧
      ∃ vd vid cd cid,
        resolveVoucher db eventId body.voucherCode tx.totalPrice now = .ok (vd, vid) ∧
        resolveCoupon db userId body.couponCode tx.totalPrice vd now = .ok (cd, cid) ∧
        tx.pointsUsed = min body.pointsToUse
          (min (calculateUserPointBalance db.points userId now)
            (tx.totalPrice - vd - cd)) := by
  intro db db' userId eventId body now tx h
  obtain ⟨tt, ev, vd, vid, cd, cid, htt, hev, hne, hq, hp, hav, hvres, hcres, hbal, h10⟩ :=
    createTransaction_ok h
  have htx : tx = (applyCreateWrites db userId eventId body.ticketTypeId body.quantity
      ev.title vid cid (tt.price * body.quantity)
      (min body.pointsToUse (min (calculateUserPointBalance db.points userId now)
        (tt.price * body.quantity - vd - cd)))
      (max 0 (tt.price * body.quantity - vd - cd -
        min body.pointsToUse (min (calculateUserPointBalance db.points userId now)
          (tt.price * body.quantity - vd - cd)))) now).2 := congrArg Prod.snd h10
  rw [applyCreateWrites_snd] at htx
  refine ⟨hbal, vd, vid, cd, cid, ?_, ?_, ?_⟩
  · rw [htx]
    exact hvres
  · rw [htx]
    exact hcres
  · rw [htx]
    rfl

/-- Witness for C5 (amended): the concrete purchase paying 500 points from a
balance of 1500 and a payable of 1000. -/
theorem C5_points_applied_amended_witness :
    ptBody.pointsToUse ≤ calculateUserPointBalance ptDb.points 1 10 ∧
    ∃ vd vid cd cid,
      resolveVoucher ptDb 1 none ptTx.totalPrice 10 = .ok (vd, vid) ∧
      resolveCoupon ptDb 1 none ptTx.totalPrice vd 10 = .ok (cd, cid) ∧
      ptTx.pointsUsed = min ptBody.pointsToUse
        (min (calculateUserPointBalance ptDb.points 1 10) (ptTx.totalPrice - vd - cd)) :=
  C5_points_applied_amended ptDb _ 1 1 ptBody 10 ptTx createTransaction_ptDb

theorem applyCreateWrites_fst (db : DB) (userId eventId ticketTypeId : Nat)
    (quantity : Int) (eventTitle : String) (voucherId couponId : Option Nat)
    (subtotal pointsToDeduct finalPrice : Int) (now : Int) :
    (applyCreateWrites db userId eventId ticketTypeId quantity eventTitle voucherId
        couponId subtotal pointsToDeduct finalPrice now).1 =
      { db with
        ticketTypes := db.ticketTypes.map (fun t : TicketType =>
          if t.id == ticketTypeId then reserveSeats t quantity else t),
        vouchers :=
          match voucherId with
          | some vid => db.vouchers.map (fun v : Voucher =>
              if v.id == vid then { v with usedCount := v.usedCount + 1 } else v)
          | none => db.vouchers,
        coupons :=
          match couponId with
          | some cid => db.coupons.map (fun c : Coupon =>
              if c.id == cid then { c with isUsed := true } else c)
          | none => db.coupons,
        users :=
          if pointsToDeduct > 0 then
            db.users.map (fun u : UserRow =>
              if u.id == userId then { u with point := u.point - pointsToDeduct } else u)
          else db.users,
        points :=
          if pointsToDeduct > 0 then
            db.points ++ [mkUsedPoint db.nextPointId userId pointsToDeduct eventTitle now]
          else db.points,
        nextPointId := if pointsToDeduct > 0 then db.nextPointId + 1 else db.nextPointId,
        transactions := db.transactions ++
          [mkCreatedTx db.nextTxId userId eventId ticketTypeId quantity subtotal
            pointsToDeduct finalPrice now voucherId couponId],
        nextTxId := db.nextTxId + 1 } := rfl

/-- C10: a purchase attempt by the user who owns the event (through the
organizer profile referenced by the event) fails with the 403 permission error
and returns the database unchanged. -/
theorem C10_no_self_purchase :
    ∀ (db : DB) (userId eventId : Nat) (body : CreateTransactionBody) (now : Int)
      (tt : TicketType) (ev : EventRow) (orgId : Nat) (org : OrganizerRow),
      0 < body.quantity → 0 ≤ body.pointsToUse →
      db.ticketTypes.find? (fun t => t.id == body.ticketTypeId) = some tt →
      db.events.find? (fun e => e.id == tt.eventId) = some ev →
      tt.eventId = eventId →
      ev.organizerId = some orgId →
      db.organizers.find? (fun o => o.id == orgId) = some org →
      org.userId = userId →
      createTransaction db userId eventId body now =
        (db, .error ⟨"You cannot purchase tickets for your own event", 403⟩) := by
  intro db userId eventId body now tt ev orgId org hq hp htt hev hne horgid hofind houser
  have h1 : ¬(body.quantity ≤ 0) := by omega
  have h2 : ¬(body.pointsToUse < 0) := by omega
  have h3 : ¬(tt.eventId ≠ eventId) := by omega
  simp only [createTransaction, htt, hev, horgid, hofind, houser, if_neg h1, if_neg h2,
    if_neg h3, beq_self_eq_true, if_pos]

/-- Fixture for C10: the event's organizer profile belongs to user 2. -/
def selfDb : DB :=
  { emptyDB with
    ticketTypes := [ttFix]
    events := [{ id := 1, organizerId := some 1, title := "Rock", endDate := none }]
    organizers := [{ id := 1, userId := 2 }]
    users := [{ id := 2, point := 0, role := "ORGANIZER" }] }

def selfBody : CreateTransactionBody :=
  { ticketTypeId := 1, quantity := 1, voucherCode := none, couponCode := none,
    pointsToUse := 0 }

/-- Witness for C10: user 2 (the organizer of event 1) cannot buy a ticket of
their own event. -/
theorem C10_no_self_purchase_witness :
    createTransaction selfDb 2 1 selfBody 10 =
      (selfDb, .error ⟨"You cannot purchase tickets for your own event", 403⟩) :=
  C10_no_self_purchase selfDb 2 1 selfBody 10 ttFix
    { id := 1, organizerId := some 1, title := "Rock", endDate := none } 1
    { id := 1, userId := 2 } (by decide) (by decide) rfl rfl rfl rfl rfl rfl

/-- C7: `availableSeats + sold == totalSeats` and `availableSeats >= 0` hold
after every reserve (given sufficient seats) and after every release (both
given they held before); a successful `createTransaction` changes categories
exactly by `reserveSeats` on the purchased category, and a successful rollback
changes them exactly by `releaseSeats` on the rolled-back transaction's
category. -/
theorem C7_seat_invariant :
    (∀ (t : TicketType) (qty : Int),
        t.availableSeat + t.sold = t.totalSeat → 0 ≤ t.availableSeat →
        qty ≤ t.availableSeat →
        (reserveSeats t qty).availableSeat + (reserveSeats t qty).sold =
          (reserveSeats t qty).totalSeat ∧ 0 ≤ (reserveSeats t qty).availableSeat) ∧
    (∀ (t : TicketType) (qty : Int),
        t.availableSeat + t.sold = t.totalSeat → 0 ≤ t.availableSeat → 0 ≤ qty →
        (releaseSeats t qty).availableSeat + (releaseSeats t qty).sold =
          (releaseSeats t qty).totalSeat ∧ 0 ≤ (releaseSeats t qty).availableSeat) ∧
    (∀ (db db' : DB) (userId eventId : Nat) (body : CreateTransactionBody)
        (now : Int) (tx : TransactionRow),
        createTransaction db userId eventId body now = (db', .ok tx) →
        db'.ticketTypes = db.ticketTypes.map (fun t : TicketType =>
          if t.id == body.ticketTypeId then reserveSeats t body.quantity else t)) ∧
    (∀ (db db' : DB) (transactionId : Nat),
        rollbackTransaction db transactionId = (db', .ok ()) →
        ∃ tr, db.transactions.find? (fun t => t.id == transactionId) = some tr ∧
          db'.ticketTypes = db.ticketTypes.map (fun t : TicketType =>
            if t.id == tr.ticketTypeId then releaseSeats t tr.ticketQty else t)) := by
  refine ⟨?_, ?_, ?_, ?_⟩
  · intro t qty h1 h2 h3
    simp only [reserveSeats]
    omega
  · intro t qty h1 h2 h3
    simp only [releaseSeats]
    omega
  · intro db db' userId eventId body now tx h
    obtain ⟨tt, ev, vd, vid, cd, cid, htt, hev, hne, hq, hp, hav, hvres, hcres, hbal, h10⟩ :=
      createTransaction_ok h
    have hdb : db' = (applyCreateWrites db userId eventId body.ticketTypeId body.quantity
        ev.title vid cid (tt.price * body.quantity)
        (min body.pointsToUse (min (calculateUserPointBalance db.points userId now)
          (tt.price * body.quantity - vd - cd)))
        (max 0 (tt.price * body.quantity - vd - cd -
          min body.pointsToUse (min (calculateUserPointBalance db.points userId now)
            (tt.price * body.quantity - vd - cd)))) now).1 := congrArg Prod.fst h10
    rw [hdb, applyCreateWrites_fst]
  · intro db db' transactionId h
    simp only [rollbackTransaction] at h
    split at h
    · exact Except.noConfusion (congrArg Prod.snd h)
    · rename_i tr htr
      refine ⟨tr, htr, ?_⟩
      have := congrArg Prod.fst h
      simp only at this
      rw [← this]

/-- Witness for C7: the four conjuncts instantiated on concrete data — a
reserve of 2 seats and a release of 1 seat on the fixture category, the
concrete successful purchase, and the rollback of that purchase. -/
theorem C7_seat_invariant_witness :
    ((reserveSeats ttFix 2).availableSeat + (reserveSeats ttFix 2).sold =
      (reserveSeats ttFix 2).totalSeat ∧ 0 ≤ (reserveSeats ttFix 2).availableSeat) ∧
    ((releaseSeats ttFix 1).availableSeat + (releaseSeats ttFix 1).sold =
      (releaseSeats ttFix 1).totalSeat ∧ 0 ≤ (releaseSeats ttFix 1).availableSeat) ∧
    ((createTransaction ptDb 1 1 ptBody 10).1.ticketTypes =
      ptDb.ticketTypes.map (fun t : TicketType =>
        if t.id == ptBody.ticketTypeId then reserveSeats t ptBody.quantity else t)) ∧
    (∃ tr, ((createTransaction ptDb 1 1 ptBody 10).1).transactions.find?
        (fun t => t.id == 1) = some tr ∧
      (rollbackTransaction ((createTransaction ptDb 1 1 ptBody 10).1) 1).1.ticketTypes =
        ((createTransaction ptDb 1 1 ptBody 10).1).ticketTypes.map
          (fun t : TicketType =>
            if t.id == tr.ticketTypeId then releaseSeats t tr.ticketQty else t)) :=
  ⟨C7_seat_invariant.1 ttFix 2 (by decide) (by decide) (by decide),
   C7_seat_invariant.2.1 ttFix 1 (by decide) (by decide) (by decide),
   C7_seat_invariant.2.2.1 ptDb _ 1 1 ptBody 10 ptTx createTransaction_ptDb,
   C7_seat_invariant.2.2.2 ((createTransaction ptDb 1 1 ptBody 10).1) _ 1 rfl⟩

/-- A `WAITING_PAYMENT` transaction for one seat of the fixture category whose
payment deadline (t = 100) has passed. -/
def expTx : TransactionRow :=
  { id := 1
    userId := 1
    eventId := 1
    ticketTypeId := 1
    voucherId := none
    couponId := none
    ticketQty := 1
    totalPrice := 1000
    pointsUsed := 0
    finalPrice := 1000
    expiredAt := 100
    status := TxStatus.WAITING_PAYMENT
    paymentProof := none
    rejectionReason := none
    createdAt := 0
    updatedAt := 0 }

def expDb : DB :=
  { emptyDB with
    ticketTypes := [ttFix]
    events := [evFix]
    users := [{ id := 1, point := 0, role := "CUSTOMER" }]
    transactions := [expTx]
    nextTxId := 2 }

/-- C2, failing input: `submitPaymentProof` at `now = 200` on the transaction
whose deadline was 100 performs the rollback (seats go back from 9/1 to 10/0)
and fails with the expired error, but leaves the status at `WAITING_PAYMENT`
instead of setting it to `EXPIRED`. -/
theorem C2_expired_upload_leaves_status :
    (uploadPaymentProof expDb 1 1 "proof.png" 200).2 =
      .error ⟨"Payment deadline has expired", 400⟩ ∧
    ((uploadPaymentProof expDb 1 1 "proof.png" 200).1).ticketTypes.map
      (fun t : TicketType => (t.availableSeat, t.sold)) = [(10, 0)] ∧
    ((uploadPaymentProof expDb 1 1 "proof.png" 200).1).transactions.map
      (fun t : TransactionRow => t.status) = [TxStatus.WAITING_PAYMENT] :=
  ⟨rfl, rfl, rfl⟩

/-- C1, failing input: after the expired `submitPaymentProof` (first rollback,
status left at `WAITING_PAYMENT`), the expiry sweep finds the same transaction
again and rolls it back a second time: the quantity-1 reservation ends with
`availableSeat` raised from 9 to 11 and `sold` driven to -1 — the rollback's
side effects were applied twice. -/
theorem C1_rollback_applied_twice :
    ttFix.availableSeat = 9 ∧ ttFix.sold = 1 ∧ expTx.ticketQty = 1 ∧
    ((expireTransactions ((uploadPaymentProof expDb 1 1 "proof.png" 200).1) 200).1).ticketTypes.map
      (fun t : TicketType => (t.availableSeat, t.sold)) = [(11, -1)] ∧
    ((expireTransactions ((uploadPaymentProof expDb 1 1 "proof.png" 200).1) 200).1).transactions.map
      (fun t : TransactionRow => t.status) = [TxStatus.EXPIRED] :=
  ⟨rfl, rfl, rfl, rfl, rfl⟩

theorem map_id_of_mem {α : Type} {f : α → α} :
    ∀ {l : List α}, (∀ x ∈ l, f x = x) → l.map f = l := by
  intro l h
  calc l.map f = l.map id := List.map_congr_left h
  _ = l := List.map_id l

theorem release_reserve (t : TicketType) (q : Int) :
    releaseSeats (reserveSeats t q) q = t := by
  simp [reserveSeats, releaseSeats]

theorem coupon_eq_of_pairwise_ne :
    ∀ {l : List Coupon}, List.Pairwise (fun a b => a.id ≠ b.id) l →
      ∀ {x y : Coupon}, x ∈ l → y ∈ l → x.id = y.id → x = y := by
  intro l hp
  induction hp with
  | nil => intro x y hx; simp at hx
  | cons hhead htail ih =>
    intro x y hx hy hid
    rcases List.mem_cons.mp hx with rfl | hx'
    · rcases List.mem_cons.mp hy with rfl | hy'
      · rfl
      · exact absurd hid (hhead y hy')
    · rcases List.mem_cons.mp hy with rfl | hy'
      · exact absurd hid.symm (hhead x hx')
      · exact ih hx' hy' hid

theorem usedDescription_isInfix (title : String) :
    "transaction on event".toList <:+:
      ("Used for transaction on event: " ++ title).toList := by
  have hbase : "transaction on event".toList <:+:
      "Used for transaction on event: ".toList := by decide
  have happ : ("Used for transaction on event: " ++ title).toList =
      "Used for transaction on event: ".toList ++ title.toList :=
    String.data_append _ _
  rw [happ]
  exact hbase.trans ((List.prefix_append _ _).isInfix)

theorem rollback_after_create
    (db : DB) (userId eventId ticketTypeId : Nat) (quantity : Int) (title : String)
    (vid cid : Option Nat) (S P F now : Int)
    (hfresh : ∀ t ∈ db.transactions, t.id ≠ db.nextTxId)
    (hcoup : ∀ x ∈ db.coupons, ∀ i, cid = some i → x.id = i → x.isUsed = false)
    (hnocoll : 0 < P → ∀ p ∈ db.points, usedEntryMatches userId P p = false) :
    ∃ db2,
      rollbackTransaction
        (applyCreateWrites db userId eventId ticketTypeId quantity title vid cid
          S P F now).1
        (applyCreateWrites db userId eventId ticketTypeId quantity title vid cid
          S P F now).2.id
        = (db2, .ok ()) ∧
      db2.ticketTypes = db.ticketTypes ∧
      db2.vouchers = db.vouchers ∧
      db2.coupons = db.coupons ∧
      db2.users = db.users ∧
      db2.points = db.points := by
  simp only [applyCreateWrites_fst, applyCreateWrites_snd, mkCreatedTx_id]
  have hfindtx : List.find? (fun t => t.id == db.nextTxId)
      (db.transactions ++ [mkCreatedTx db.nextTxId userId eventId ticketTypeId
        quantity S P F now vid cid]) =
      some (mkCreatedTx db.nextTxId userId eventId ticketTypeId quantity S P F now
        vid cid) := by
    rw [List.find?_append, List.find?_eq_none.mpr (fun x hx => by simpa using hfresh x hx)]
    simp [List.find?_cons]
  simp only [rollbackTransaction, hfindtx, mkCreatedTx_pointsUsed, mkCreatedTx_userId,
    mkCreatedTx_ticketTypeId, mkCreatedTx_ticketQty, mkCreatedTx_voucherId,
    mkCreatedTx_couponId]
  refine ⟨_, rfl, ?_, ?_, ?_, ?_, ?_⟩
  · show (db.ticketTypes.map _).map _ = db.ticketTypes
    rw [List.map_map]
    apply map_id_of_mem
    intro x hx
    by_cases hid : (x.id == ticketTypeId) = true
    · simp [Function.comp, hid, reserveSeats, releaseSeats]
    · simp [Function.comp, hid]
  · cases vid with
    | none => rfl
    | some i =>
      show (db.vouchers.map _).map _ = db.vouchers
      rw [List.map_map]
      apply map_id_of_mem
      intro x hx
      by_cases hid : (x.id == i) = true
      · simp [Function.comp, hid]
      · simp [Function.comp, hid]
  · cases cid with
    | none => rfl
    | some i =>
      show (db.coupons.map _).map _ = db.coupons
      rw [List.map_map]
      apply map_id_of_mem
      intro x hx
      by_cases hid : (x.id == i) = true
      · have hxu : x.isUsed = false := hcoup x hx i rfl (by simpa using hid)
        obtain ⟨xid, xuid, xcode, xda, xea, xiu⟩ := x
        simp only [Coupon.mk.injEq] at hxu ⊢
        simp only at hid
        simp [Function.comp, hid, hxu]
      · simp [Function.comp, hid]
  · by_cases hP : P > 0
    · simp only [if_pos hP]
      show (db.users.map _).map _ = db.users
      rw [List.map_map]
      apply map_id_of_mem
      intro x hx
      by_cases hid : (x.id == userId) = true
      · simp [Function.comp, hid]
      · simp [Function.comp, hid]
    · simp only [if_neg hP]
  · by_cases hP : P > 0
    · simp only [if_pos hP]
      rw [List.filter_append]
      have h1 : db.points.filter (fun p => !usedEntryMatches userId P p) = db.points :=
        List.filter_eq_self.mpr (fun p hp => by simp [hnocoll hP p hp])
      have h2 : usedEntryMatches userId P
          (mkUsedPoint db.nextPointId userId P title now) = true := by
        simp only [usedEntryMatches, mkUsedPoint_userId, mkUsedPoint_ptType,
          mkUsedPoint_amount, mkUsedPoint_description, beq_self_eq_true,
          Bool.and_eq_true, decide_eq_true_eq]
        exact ⟨⟨⟨trivial, trivial⟩, usedDescription_isInfix title⟩, trivial⟩
      rw [h1]
      simp [List.filter, h2]
    · simp only [if_neg hP]

theorem resolveCoupon_ok_coupon {db : DB} {userId : Nat} {cc : Option String}
    {st vd now : Int} {cd : Int} {cid : Option Nat}
    (h : resolveCoupon db userId cc st vd now = .ok (cd, cid)) :
    cid = none ∨ ∃ c, c ∈ db.coupons ∧ cid = some c.id ∧ c.isUsed = false := by
  cases cc with
  | none =>
    simp only [resolveCoupon, Except.ok.injEq, Prod.mk.injEq] at h
    exact Or.inl h.2.symm
  | some code =>
    simp only [resolveCoupon] at h
    split at h
    · exact Except.noConfusion h
    · rename_i c hc
      split at h
      · exact Except.noConfusion h
      · simp only [Except.ok.injEq, Prod.mk.injEq] at h
        have hpred := List.find?_some hc
        simp only [Bool.and_eq_true, beq_iff_eq] at hpred
        exact Or.inr ⟨c, List.mem_of_find?_eq_some hc, h.2.symm, hpred.2⟩

/-- C3 (amended): for every state reachable by a successful `createTransaction`,
the rollback restores the ticket category's seats, the voucher's usedCount,
the coupon's isUsed flag, the cached point total and the point ledger (hence
the FIFO balance) exactly — provided the new transaction's id is fresh, coupon
ids are unique, and (when points were spent) no pre-existing USED entry of the
user matches the rollback's description-substring + amount filter. -/
theorem C3_roundtrip_amended :
    ∀ (db db' : DB) (userId eventId : Nat) (body : CreateTransactionBody)
      (now : Int) (tx : TransactionRow),
      createTransaction db userId eventId body now = (db', .ok tx) →
      (∀ t ∈ db.transactions, t.id ≠ db.nextTxId) →
      List.Pairwise (fun a b => a.id ≠ b.id) db.coupons →
      (0 < tx.pointsUsed → ∀ p ∈ db.points,
          usedEntryMatches tx.userId tx.pointsUsed p = false) →
      ∃ db2, rollbackTransaction db' tx.id = (db2, .ok ()) ∧
        db2.ticketTypes = db.ticketTypes ∧
        db2.vouchers = db.vouchers ∧
        db2.coupons = db.coupons ∧
        db2.users = db.users ∧
        db2.points = db.points ∧
        ∀ (uid : Nat) (t : Int),
          calculateUserPointBalance db2.points uid t =
            calculateUserPointBalance db.points uid t := by
  intro db db' userId eventId body now tx h hfresh hcpw hnocoll
  obtain ⟨tt, ev, vd, vid, cd, cid, htt, hev, hne, hq, hp, hav, hvres, hcres, hbal, h10⟩ :=
    createTransaction_ok h
  set S := tt.price * body.quantity with hSdef
  set B := calculateUserPointBalance db.points userId now with hBdef
  set P := min body.pointsToUse (min B (S - vd - cd)) with hPdef
  set F := max 0 (S - vd - cd - P) with hFdef
  have hdb' : db' = (applyCreateWrites db userId eventId body.ticketTypeId
      body.quantity ev.title vid cid S P F now).1 := congrArg Prod.fst h10
  have htx : tx = (applyCreateWrites db userId eventId body.ticketTypeId
      body.quantity ev.title vid cid S P F now).2 := congrArg Prod.snd h10
  have hcoup : ∀ x ∈ db.coupons, ∀ i, cid = some i → x.id = i → x.isUsed = false := by
    intro x hx i hcid hxid
    rcases resolveCoupon_ok_coupon hcres with hnone | ⟨c, hcmem, hceq, hcused⟩
    · rw [hnone] at hcid
      exact Option.noConfusion hcid
    · have hic : c.id = i := by
        rw [hceq] at hcid
        exact Option.some.inj hcid
      have hx_eq : x = c := coupon_eq_of_pairwise_ne hcpw hx hcmem (by rw [hxid, ← hic])
      rw [hx_eq]
      exact hcused
  have hPtx : tx.pointsUsed = P := by
    rw [htx, applyCreateWrites_snd, mkCreatedTx_pointsUsed]
  have hUtx : tx.userId = userId := by
    rw [htx, applyCreateWrites_snd, mkCreatedTx_userId]
  have hnocoll' : 0 < P → ∀ p ∈ db.points, usedEntryMatches userId P p = false := by
    intro h0 p hp
    have := hnocoll (by rw [hPtx]; exact h0) p hp
    rwa [hUtx, hPtx] at this
  obtain ⟨db2, hroll, hTT, hV, hC, hUs, hPts⟩ :=
    rollback_after_create db userId eventId body.ticketTypeId body.quantity ev.title
      vid cid S P F now hfresh hcoup hnocoll'
  refine ⟨db2, ?_, hTT, hV, hC, hUs, hPts, ?_⟩
  · rw [hdb', htx]
    exact hroll
  · intro uid t
    rw [hPts]

/-- Counterexample for C3: user 1 already has a USED entry of -500 from an
earlier purchase (FIFO balance 1500 = 2000 earned - 500 used).  Creating a
transaction that spends another 500 points and rolling it back deletes *both*
USED entries (the rollback's `deleteMany` matches by description substring and
amount), so the cached total returns to 1500 but the FIFO-computed ledger
balance becomes 2000 — not its pre-creation value. -/
theorem C3_counterexample_deleteMany_overdeletes :
    calculateUserPointBalance ptDb.points 1 10 = 1500 ∧
    (createTransaction ptDb 1 1 ptBody 10).2 = .ok ptTx ∧
    (rollbackTransaction ((createTransaction ptDb 1 1 ptBody 10).1) 1).2 = .ok () ∧
    ((rollbackTransaction ((createTransaction ptDb 1 1 ptBody 10).1) 1).1).users.map
      (fun u : UserRow => u.point) = [1500] ∧
    calculateUserPointBalance
      ((rollbackTransaction ((createTransaction ptDb 1 1 ptBody 10).1) 1).1).points
      1 10 = 2000 :=
  ⟨rfl, rfl, rfl, rfl, rfl⟩

/-- Same customer as `ptDb` but with no pre-existing USED ledger entry, so the
rollback's description/amount match is unambiguous. -/
def pt2Db : DB :=
  { emptyDB with
    ticketTypes := [ttFix]
    events := [evFix]
    users := [{ id := 1, point := 2000, role := "CUSTOMER" }]
    points := [{ id := 1, userId := 1, amount := 2000, ptType := PointType.EARNED,
                 createdAt := 0, expiredAt := none, description := "signup bonus" }]
    nextPointId := 2 }

/-- Witness for the amended C3 on a database without a colliding USED entry. -/
theorem C3_roundtrip_amended_witness :
    ∃ db2, rollbackTransaction ((createTransaction pt2Db 1 1 ptBody 10).1) ptTx.id =
        (db2, .ok ()) ∧
      db2.ticketTypes = pt2Db.ticketTypes ∧
      db2.vouchers = pt2Db.vouchers ∧
      db2.coupons = pt2Db.coupons ∧
      db2.users = pt2Db.users ∧
      db2.points = pt2Db.points ∧
      ∀ (uid : Nat) (t : Int),
        calculateUserPointBalance db2.points uid t =
          calculateUserPointBalance pt2Db.points uid t :=
  C3_roundtrip_amended pt2Db _ 1 1 ptBody 10 ptTx rfl
    (by decide) (by decide) (by decide)

@[simp] theorem mkAttendee_transactionId (t : TransactionRow) (aid : Nat) (tok : String) :
    (mkAttendee t aid tok).transactionId = t.id := rfl

@[simp] theorem mkAttendee_qrToken (t : TransactionRow) (aid : Nat) (tok : String) :
    (mkAttendee t aid tok).qrToken = tok := rfl

@[simp] theorem mkAttendee_checkedIn (t : TransactionRow) (aid : Nat) (tok : String) :
    (mkAttendee t aid tok).checkedIn = false := rfl

theorem createAttendees_attendees (t : TransactionRow) (g : Nat → String) :
    ∀ (n : Nat) (db : DB),
      (createAttendees db t g n).attendees =
        db.attendees ++ (List.range n).map (fun i =>
          mkAttendee t (db.nextAttendeeId + i) (g (db.tokenCtr + i))) := by
  intro n
  induction n with
  | zero => intro db; simp [createAttendees]
  | succ m ih =>
    intro db
    rw [createAttendees, ih]
    simp only [List.range_succ_eq_map, List.map_cons, List.map_map]
    rw [List.append_assoc]
    congr 1
    simp only [Nat.add_zero, List.singleton_append]
    congr 1
    apply List.map_congr_left
    intro i _
    simp only [Function.comp_apply, Nat.succ_eq_add_one]
    rw [show db.nextAttendeeId + 1 + i = db.nextAttendeeId + (i + 1) by omega,
      show db.tokenCtr + 1 + i = db.tokenCtr + (i + 1) by omega]

theorem confirmTransaction_ok {db db' : DB} {transactionId organizerUserId : Nat}
    {tokenGen : Nat → String} {now : Int} {tx' : TransactionRow}
    (h : confirmTransaction db transactionId organizerUserId tokenGen now =
      (db', .ok tx')) :
    ∃ transaction,
      db.transactions.find? (fun t => t.id == transactionId) = some transaction ∧
      transaction.status = TxStatus.WAITING_CONFIRMATION ∧
      tx' = { transaction with status := TxStatus.DONE, updatedAt := now } ∧
      db' = createAttendees
        { db with transactions := db.transactions.map (fun t =>
            if t.id == transactionId then
              { transaction with status := TxStatus.DONE, updatedAt := now }
            else t) }
        { transaction with status := TxStatus.DONE, updatedAt := now }
        tokenGen tx'.ticketQty.toNat := by
  simp only [confirmTransaction] at h
  repeat' split at h
  any_goals exact Except.noConfusion (congrArg Prod.snd h)
  simp only [Prod.mk.injEq, Except.ok.injEq] at h
  rename_i xo org ho xt tr htr xe ev hev hperm hstat
  obtain ⟨h1, h2⟩ := h
  refine ⟨tr, htr, not_not.mp hstat, h2.symm, ?_⟩
  rw [← h2, ← h1]

/-- C8: a successful `confirm` on a WAITING_CONFIRMATION transaction of
quantity n sets the status to DONE and appends exactly n attendee rows for
that transaction, each with a nonempty check-in token, all pairwise distinct
and distinct from every pre-existing attendee's token (assuming the external
token generator supplies fresh distinct nonempty tokens, as the schema's
unique constraint on qrToken demands). -/
theorem C8_confirm_settlement :
    ∀ (db db' : DB) (transactionId organizerUserId : Nat) (tokenGen : Nat → String)
      (now : Int) (tx' : TransactionRow),
      confirmTransaction db transactionId organizerUserId tokenGen now =
        (db', .ok tx') →
      (∀ i, i < tx'.ticketQty.toNat → ∀ j, j < tx'.ticketQty.toNat →
        tokenGen (db.tokenCtr + i) = tokenGen (db.tokenCtr + j) → i = j) →
      (∀ i, i < tx'.ticketQty.toNat → tokenGen (db.tokenCtr + i) ≠ "") →
      (∀ a ∈ db.attendees, ∀ i, i < tx'.ticketQty.toNat →
        a.qrToken ≠ tokenGen (db.tokenCtr + i)) →
      (db.attendees.map (fun a : Attendee => a.qrToken)).Nodup →
      (∀ a ∈ db.attendees, a.transactionId ≠ transactionId) →
      tx'.status = TxStatus.DONE ∧
      ∃ newAtts : List Attendee,
        db'.attendees = db.attendees ++ newAtts ∧
        newAtts.length = tx'.ticketQty.toNat ∧
        (∀ a ∈ newAtts, a.transactionId = transactionId ∧ a.qrToken ≠ "" ∧
          a.checkedIn = false) ∧
        (db'.attendees.filter (fun a : Attendee =>
          a.transactionId == transactionId)).length = tx'.ticketQty.toNat ∧
        (db'.attendees.map (fun a : Attendee => a.qrToken)).Nodup := by
  intro db db' transactionId organizerUserId tokenGen now tx' h hinj hne hfreshtok
    hnodup hnotx
  obtain ⟨tr, htr, hstat, htx', hdb'⟩ := confirmTransaction_ok h
  have htrid : tr.id = transactionId := by
    simpa using List.find?_some htr
  have hqty : ({ tr with status := TxStatus.DONE, updatedAt := now } :
      TransactionRow).id = transactionId := htrid
  constructor
  · rw [htx']
  set n := tx'.ticketQty.toNat with hn
  have hatts : db'.attendees = db.attendees ++ (List.range n).map (fun i =>
      mkAttendee { tr with status := TxStatus.DONE, updatedAt := now }
        (db.nextAttendeeId + i) (tokenGen (db.tokenCtr + i))) := by
    rw [hdb', createAttendees_attendees]
  refine ⟨_, hatts, ?_, ?_, ?_, ?_⟩
  · simp [List.length_range]
  · intro a ha
    rw [List.mem_map] at ha
    obtain ⟨i, hi, rfl⟩ := ha
    rw [List.mem_range] at hi
    exact ⟨hqty ▸ rfl, hne i hi, rfl⟩
  · rw [hatts, List.filter_append]
    have hold : db.attendees.filter (fun a : Attendee =>
        a.transactionId == transactionId) = [] :=
      List.filter_eq_nil_iff.mpr (fun a ha => by simpa using hnotx a ha)
    have hnew : ((List.range n).map (fun i =>
        mkAttendee { tr with status := TxStatus.DONE, updatedAt := now }
          (db.nextAttendeeId + i) (tokenGen (db.tokenCtr + i)))).filter
        (fun a : Attendee => a.transactionId == transactionId) =
        (List.range n).map (fun i =>
          mkAttendee { tr with status := TxStatus.DONE, updatedAt := now }
            (db.nextAttendeeId + i) (tokenGen (db.tokenCtr + i))) :=
      List.filter_eq_self.mpr (fun a ha => by
        rw [List.mem_map] at ha
        obtain ⟨i, hi, rfl⟩ := ha
        simp [mkAttendee_transactionId, htrid])
    rw [hold, hnew]
    simp [List.length_range]
  · rw [hatts, List.map_append]
    apply List.Nodup.append hnodup
    · rw [List.map_map]
      apply List.Nodup.map_on ?_ (List.nodup_range n)
      intro x hx y hy hxy
      rw [List.mem_range] at hx hy
      exact hinj x hx y hy (by simpa using hxy)
    · intro s hs hs2
      rw [List.mem_map] at hs
      obtain ⟨a, ha, rfl⟩ := hs
      rw [List.map_map, List.mem_map] at hs2
      obtain ⟨i, hi, hqe⟩ := hs2
      rw [List.mem_range] at hi
      exact hfreshtok a ha i hi (by simpa using hqe.symm)

/-- The external unique-token generator used by the C8 witness: three distinct
nonempty tokens. -/
def tokG : Nat → String := fun k => ["ta", "tb", "tc"].getD k ""

/-- A `WAITING_CONFIRMATION` transaction for 3 seats. -/
def wcTx : TransactionRow :=
  { expTx with
    status := TxStatus.WAITING_CONFIRMATION
    ticketQty := 3 }

def cfDb : DB :=
  { emptyDB with
    ticketTypes := [ttFix]
    events := [{ id := 1, organizerId := some 1, title := "Rock", endDate := none }]
    organizers := [{ id := 1, userId := 2 }]
    users := [{ id := 1, point := 0, role := "CUSTOMER" }]
    transactions := [wcTx]
    nextTxId := 2 }

def cfTx : TransactionRow := { wcTx with status := TxStatus.DONE, updatedAt := 99 }

/-- Witness for C8: confirming the quantity-3 transaction issues exactly 3
attendee rows with distinct nonempty tokens. -/
theorem C8_confirm_settlement_witness :
    cfTx.status = TxStatus.DONE ∧
    ∃ newAtts : List Attendee,
      ((confirmTransaction cfDb 1 2 tokG 99).1).attendees = cfDb.attendees ++ newAtts ∧
      newAtts.length = cfTx.ticketQty.toNat ∧
      (∀ a ∈ newAtts, a.transactionId = 1 ∧ a.qrToken ≠ "" ∧ a.checkedIn = false) ∧
      (((confirmTransaction cfDb 1 2 tokG 99).1).attendees.filter
        (fun a : Attendee => a.transactionId == 1)).length = cfTx.ticketQty.toNat ∧
      (((confirmTransaction cfDb 1 2 tokG 99).1).attendees.map
        (fun a : Attendee => a.qrToken)).Nodup :=
  C8_confirm_settlement cfDb _ 1 2 tokG 99 cfTx rfl (by decide) (by decide)
    (by decide) (by decide) (by decide)

/-- C9: `checkIn` is idempotent — for an attendee (parent transaction DONE,
event not ended) that is not yet checked in, the first call mutates the
attendee once (stamping `checkedInAt = now1`); a second call at any later
clock leaves the database untouched and returns the informational result
reporting the original `checkedInAt`. -/
theorem C9_checkin_idempotent :
    ∀ (db : DB) (token : String) (now1 now2 : Int) (a : Attendee),
      db.attendees.find? (fun x => x.qrToken == token) = some a →
      a.checkedIn = false →
      txStatusForAttendee db a = some TxStatus.DONE →
      eventEndedForAttendee db a now1 = false →
      eventEndedForAttendee db a now2 = false →
      ∃ db1,
        checkIn db token now1 =
          (db1, .ok ⟨true, "Check-in successful!", some now1⟩) ∧
        checkIn db1 token now2 =
          (db1, .ok ⟨false, "Already checked in", some now1⟩) := by
  intro db token now1 now2 a hfind hchk hstatus hev1 hev2
  have hpa : (a.qrToken == token) = true := by
    have h0 := List.find?_some hfind
    simpa using h0
  refine ⟨{ db with attendees := db.attendees.map (fun x : Attendee =>
    if x.qrToken == token then { x with checkedIn := true, checkedInAt := some now1 }
    else x) }, ?_, ?_⟩
  · simp only [checkIn, hfind]
    rw [if_neg (by simp [hstatus]), if_neg (by simp [hev1]), if_neg (by simp [hchk])]
  · have hcomp : ((fun x : Attendee => x.qrToken == token) ∘
        (fun x : Attendee => if x.qrToken == token then
          { x with checkedIn := true, checkedInAt := some now1 } else x)) =
        (fun x : Attendee => x.qrToken == token) := by
      funext x
      simp only [Function.comp_apply]
      by_cases hx : (x.qrToken == token) = true
      · rw [if_pos hx]
      · rw [if_neg hx]
    simp only [checkIn]
    rw [List.find?_map, hcomp, hfind]
    simp only [Option.map_some']
    rw [if_pos hpa]
    simp only [txStatusForAttendee, eventEndedForAttendee] at hstatus hev2 ⊢
    rw [if_neg (by simp [hstatus])]
    rw [if_neg (by simp [hev2])]
    simp only [if_true]

/-- A settled (DONE) transaction with one not-yet-checked-in attendee. -/
def ciTx : TransactionRow := { expTx with status := TxStatus.DONE }

def ciAtt : Attendee :=
  { id := 1
    transactionId := 1
    userId := 1
    eventId := 1
    ticketTypeId := 1
    qrToken := "tok"
    checkedIn := false
    checkedInAt := none }

def ciDb : DB :=
  { emptyDB with
    ticketTypes := [ttFix]
    events := [evFix]
    users := [{ id := 1, point := 0, role := "CUSTOMER" }]
    transactions := [ciTx]
    attendees := [ciAtt] }

/-- Witness for C9: checking in twice on the concrete attendee mutates state
once; the second call reports the first call's `checkedInAt`. -/
theorem C9_checkin_idempotent_witness :
    ∃ db1,
      checkIn ciDb "tok" 50 = (db1, .ok ⟨true, "Check-in successful!", some 50⟩) ∧
      checkIn db1 "tok" 60 = (db1, .ok ⟨false, "Already checked in", some 50⟩) :=
  C9_checkin_idempotent ciDb "tok" 50 60 ciAtt rfl rfl rfl rfl rfl
